import Mathlib

/-!
Shallow embedding of the retrying external-API client layer of the
`linkedin-posts` repository (files `zai_classifier.py`, `image_generator.py`,
`t2i_generator.py`, `tuning_search.py`), together with theorems settling the
frozen claims about it.

Modelling conventions:
* JSON values decoded from an HTTP response body (and Python dict/list/str
  values generally) are modelled by the inductive `Json`.
* A call to `requests.post`/`requests.get` is modelled by a `transport`
  oracle: a function from the 0-based attempt index to an `HttpResult`,
  which is either a raised `requests.exceptions.RequestException`
  (constructor `exn`) or an HTTP response with a status code and an
  optional decoded JSON body (`none` models a body on which
  `response.json()` raises `JSONDecodeError`, which is a subclass of
  `RequestException` in the `requests` library and is therefore caught by
  the same `except` clause).
* `time.sleep` calls and the number of requests issued are recorded in a
  `Trace`; sleep durations are in integer milliseconds (0.5 s = 500 ms).
* A Python function that can either return a value or let an exception
  escape is modelled with the `Outcome` type: `ret v` is a normal return
  of the value `v`, `raised e` is an uncaught Python exception.
-/

set_option autoImplicit false

namespace LinkedinPosts

/-- Model of a Python value as produced by `response.json()` (plus the
dict/list/str values the clients manipulate). Numbers are modelled as
integers; no claim involves fractional numbers. -/
inductive Json where
  | null
  | bool (b : Bool)
  | num (n : Int)
  | str (s : String)
  | arr (xs : List Json)
  | obj (fields : List (String × Json))
  deriving Repr

/-- Python exceptions that the embedded code can raise while destructuring
a decoded response value. -/
inductive PyExn where
  | keyError (k : String)
  | indexError
  | typeError
  | attributeError
  deriving Repr, DecidableEq

/-- Python `str()` of a value, as used in f-string interpolation. The
renderings of composite values are abbreviated; no claim depends on them. -/
def pyStr : Json → String
  | .null => "None"
  | .bool true => "True"
  | .bool false => "False"
  | .num n => toString n
  | .str s => s
  | .arr _ => "[...]"
  | .obj _ => "\x7b...\x7d"

/-- Python truthiness of a value. -/
def pyTruthy : Json → Bool
  | .null => false
  | .bool b => b
  | .num n => n != 0
  | .str s => !s.isEmpty
  | .arr xs => !xs.isEmpty
  | .obj fields => !fields.isEmpty

/-- First binding of key `k` in a Python dict (assignment order list). -/
def dictGet (d : List (String × Json)) (k : String) : Option Json :=
  (d.find? (fun p => p.1 = k)).map (fun p => p.2)

/-- Python `d.get(k, v)`. -/
def dictGetD (d : List (String × Json)) (k : String) (v : Json) : Json :=
  match dictGet d k with
  | some x => x
  | none => v

/-- Python dict item assignment `d[k] = v`: replaces the value in place if
the key exists, otherwise appends the new binding. -/
def dictSet (d : List (String × Json)) (k : String) (v : Json) : List (String × Json) :=
  if (d.find? (fun p => p.1 = k)).isSome then
    d.map (fun p => if p.1 = k then (p.1, v) else p)
  else
    d ++ [(k, v)]

/-- Python `str.strip()` whitespace set (space, tab, newline, carriage
return, vertical tab, form feed). -/
def isPyWhitespace (c : Char) : Bool :=
  c = ' ' || c = '\t' || c = '\n' || c = '\r' || c.toNat = 11 || c.toNat = 12

/-- Python `s.strip()`. -/
def pyStrip (s : String) : String :=
  String.mk (((s.toList.dropWhile isPyWhitespace).reverse.dropWhile
    isPyWhitespace).reverse)

/-- Splitting a character list at every occurrence of `c`, keeping empty
segments, as Python `str.split` with an explicit separator does; the result
is never empty (`[[]]` for the empty list). -/
def splitListOn (c : Char) : List Char → List (List Char)
  | [] => [[]]
  | x :: xs =>
      let r := splitListOn c xs
      if x = c then [] :: r
      else
        match r with
        | [] => [[x]]
        | y :: ys => (x :: y) :: ys

/-- Python `s.split('\n')`. -/
def pySplitNL (s : String) : List String :=
  (splitListOn '\n' s.toList).map String.mk

/-- Substring test used by Python `sub in s` on strings. -/
def strContains (s sub : String) : Bool :=
  sub.toList.isEmpty || s.toList.tails.any (fun t => sub.toList.isPrefixOf t)

/-- Python membership test `"k" in v`: key membership for dicts, element
membership for lists (a list element `==` the string `k` exactly when it is
that string), substring for strings; `TypeError` otherwise. -/
def pyIn (k : String) : Json → Except PyExn Bool
  | .obj fields => .ok ((dictGet fields k).isSome)
  | .arr xs => .ok (xs.any (fun x => match x with | .str s => decide (s = k) | _ => false))
  | .str s => .ok (strContains s k)
  | _ => .error .typeError

/-- Python subscription `j[key]`. Dicts are keyed by strings here (the only
keys the embedded code uses); lists and strings accept integer indices with
Python's negative-index wrap-around. -/
def pySub (j : Json) (key : Json) : Except PyExn Json :=
  match j, key with
  | .obj fields, .str k =>
      match dictGet fields k with
      | some v => .ok v
      | none => .error (.keyError k)
  | .obj _, k => .error (.keyError (pyStr k))
  | .arr xs, .num i =>
      let i' : Int := if i < 0 then (xs.length : Int) + i else i
      if i' < 0 then .error .indexError
      else
        match xs.get? i'.toNat with
        | some v => .ok v
        | none => .error .indexError
  | .arr _, _ => .error .typeError
  | .str s, .num i =>
      let i' : Int := if i < 0 then (s.length : Int) + i else i
      if i' < 0 then .error .indexError
      else
        match s.toList.get? i'.toNat with
        | some c => .ok (.str (String.singleton c))
        | none => .error .indexError
  | .str _, _ => .error .typeError
  | _, _ => .error .typeError

/-- Python `len(j)`; `TypeError` on values without a length. -/
def pyLen : Json → Except PyExn Int
  | .arr xs => .ok xs.length
  | .str s => .ok s.length
  | .obj fields => .ok fields.length
  | _ => .error .typeError

/-- Python item assignment `j[k] = v` for a string key: only dicts support
it; lists/strings/scalars raise `TypeError`. -/
def pySetItem (j : Json) (k : String) (v : Json) : Except PyExn Json :=
  match j with
  | .obj fields => .ok (.obj (dictSet fields k v))
  | _ => .error .typeError

/-- Result of one `requests.post`/`requests.get` call: either the transport
raised a `RequestException` (carrying its message), or an HTTP response
arrived with the given status code and decoded body (`none` = body that is
not valid JSON, so `response.json()` raises `JSONDecodeError`, itself a
`RequestException`). -/
inductive HttpResult where
  | exn (msg : String)
  | resp (status : Nat) (body : Option Json)
  deriving Repr

/-- Observable outcome of a client method: a returned value, or an uncaught
Python exception escaping to the caller. -/
inductive Outcome where
  | ret (v : Json)
  | raised (e : PyExn)
  deriving Repr

/-- Instrumentation recorded while running a client method: the list of
`time.sleep` durations in milliseconds, in order, and the number of HTTP
requests issued. -/
structure Trace where
  sleepsMs : List Nat
  requests : Nat
  deriving Repr, DecidableEq

/-- What one loop iteration decides: return from the function with an
outcome, or `continue` to the next attempt. -/
inductive StepResult where
  | done (o : Outcome)
  | retry
  deriving Repr

/-- `max_retries = 3` (identical in all three retrying clients). -/
def maxRetries : Nat := 3

/-- `base_delay = 2` seconds, in milliseconds. -/
def baseDelayMs : Nat := 2000

/-- The fixed 0.5 s pre-request delay, in milliseconds. -/
def preDelayMs : Nat := 500

/-- The sleep executed at the top of loop iteration `attempt`:
`base_delay * (2 ** attempt)` seconds for `attempt > 0`, else 0.5 s. -/
def attemptDelayMs (attempt : Nat) : Nat :=
  if attempt > 0 then baseDelayMs * 2 ^ attempt else preDelayMs

/-- The retry loop body shared by `classify_news`, `generate_linkedin_post`
and the two `generate_image` variants: at each iteration sleep, issue the
request, and let the client-specific handler (`handle`) inspect the result;
`handle` receives whether this is the last allowed attempt
(`attempt >= max_retries - 1`, matching the source's
`attempt < max_retries - 1` test). `remaining` is the number of loop
iterations left, initially `maxRetries`. The `fallback` outcome models the
return statement after the loop (reachable in the source only through a
dead `except HTTPError`-with-429 branch, since the 429 status test precedes
`raise_for_status`). -/
def runRetryGo (handle : HttpResult → Bool → StepResult) (fallback : Outcome)
    (transport : Nat → HttpResult) (remaining attempt : Nat)
    (sleeps : List Nat) (reqs : Nat) : Outcome × Trace :=
  match remaining with
  | 0 => (fallback, ⟨sleeps, reqs⟩)
  | r + 1 =>
      let d := attemptDelayMs attempt
      match handle (transport attempt) (decide (maxRetries - 1 ≤ attempt)) with
      | .done o => (o, ⟨sleeps ++ [d], reqs + 1⟩)
      | .retry => runRetryGo handle fallback transport r (attempt + 1) (sleeps ++ [d]) (reqs + 1)

/-- `for attempt in range(max_retries): ...` with the trace starting empty. -/
def runRetry (handle : HttpResult → Bool → StepResult) (fallback : Outcome)
    (transport : Nat → HttpResult) : Outcome × Trace :=
  runRetryGo handle fallback transport maxRetries 0 [] 0

/-- The rate-limit message returned on the third 429, identical in
`zai_classifier.py`, `image_generator.py` and `t2i_generator.py`. -/
def rateLimitMsg : String :=
  "Erro: Limite de taxa da API excedido. Tente novamente em alguns minutos."

/-- Abstraction of Python `str(e)` for the `HTTPError` raised by
`response.raise_for_status()`; no claim depends on the exact text. -/
def httpErrorMsg (status : Nat) : String :=
  toString status ++ (if status < 500 then " Client Error" else " Server Error")

/-- Abstraction of Python `str(e)` for the `JSONDecodeError` raised by
`response.json()` on a non-JSON body; no claim depends on the exact text. -/
def jsonDecodeMsg : String := "Expecting value"

/-- `result["choices"][0]["message"]["content"]` extraction guarded by
`if "choices" in result and len(result["choices"]) > 0`, shared verbatim by
`classify_news` and `generate_linkedin_post` in `zai_classifier.py`.
Exceptions raised while destructuring the decoded body are NOT caught by
those functions (their `except` clauses only cover `requests` exceptions),
so they surface as `Outcome.raised`. -/
def chatExtract (j : Json) : Outcome :=
  let r : Except PyExn (Option Json) := do
    let hasChoices ← pyIn "choices" j
    if hasChoices then do
      let choices ← pySub j (.str "choices")
      let n ← pyLen choices
      if n > 0 then do
        let c0 ← pySub choices (.num 0)
        let m ← pySub c0 (.str "message")
        let content ← pySub m (.str "content")
        pure (some content)
      else
        pure none
    else
      pure none
  match r with
  | .error e => .raised e
  | .ok (some v) => .ret v
  | .ok none => .ret (.str "Erro na resposta da API: formato inesperado.")

/-- Per-attempt handling of the HTTP result in `classify_news` /
`generate_linkedin_post` (lines 104-127 resp. 202-225 of
`zai_classifier.py`): 429 retries (or returns `rateLimitMsg` on the last
attempt), `raise_for_status` turns 4xx/5xx into an `HTTPError` caught and
returned as `errPrefix ++ str(e)`, an undecodable body raises
`JSONDecodeError` (a `RequestException`) caught the same way, and a decoded
body goes through `chatExtract`. -/
def chatHandle (errPrefix : String) (r : HttpResult) (isLast : Bool) : StepResult :=
  match r with
  | .exn msg => .done (.ret (.str (errPrefix ++ msg)))
  | .resp status body =>
      if status = 429 then
        if isLast then .done (.ret (.str rateLimitMsg)) else .retry
      else if 400 ≤ status ∧ status < 600 then
        .done (.ret (.str (errPrefix ++ httpErrorMsg status)))
      else
        match body with
        | none => .done (.ret (.str (errPrefix ++ jsonDecodeMsg)))
        | some j => .done (chatExtract j)

/-- An article dictionary as passed to `classify_news`. -/
abbrev Article := List (String × Json)

/-- One `Notícia i` block of the `news_data` string built by
`classify_news` (lines 38-48). `article.get('source', {}).get('name',
'N/A')` raises `AttributeError` when the `source` value is not a dict. -/
def articleBlock (i : Nat) (article : Article) : Except PyExn String := do
  let title := dictGetD article "title" (.str "N/A")
  let description := dictGetD article "description" (.str "N/A")
  let source ←
    (match dictGetD article "source" (.obj []) with
     | .obj f => Except.ok (dictGetD f "name" (.str "N/A"))
     | _ => Except.error PyExn.attributeError)
  let publishedAt := dictGetD article "publishedAt" (.str "N/A")
  pure ("\nNotícia " ++ toString i ++ "\n"
    ++ "Título: " ++ pyStr title ++ "\n"
    ++ "Descrição: " ++ pyStr description ++ "\n"
    ++ "Fonte: " ++ pyStr source ++ "\n"
    ++ "Data: " ++ pyStr publishedAt ++ "\n")

/-- The full `news_data` string (`for i, article in enumerate(articles, 1)`). -/
def newsData (articles : List Article) : Except PyExn String :=
  articles.enum.foldl
    (fun acc p => do
      let s ← acc
      let b ← articleBlock (p.1 + 1) p.2
      pure (s ++ b))
    (Except.ok "")

/-- Error prefix of `classify_news`. -/
def classifyErrPrefix : String := "Erro ao classificar notícias: "

/-- Return statement after the retry loop of `classify_news`. -/
def classifyFallback : Outcome :=
  .ret (.str "Erro: Não foi possível classificar após múltiplas tentativas. Tente novamente mais tarde.")

/-- `ZAIClassifier.classify_news` (zai_classifier.py lines 23-130). The
request payload (prompt + `news_data`) does not influence the modelled
response, which is supplied by the `transport` oracle; `news_data` is still
built first, as in the source, because building it can raise. -/
def classify_news (transport : Nat → HttpResult) (articles : List Article) :
    Outcome × Trace :=
  if articles.isEmpty then
    (.ret (.str "Nenhuma notícia para classificar."), ⟨[], 0⟩)
  else
    match newsData articles with
    | .error e => (.raised e, ⟨[], 0⟩)
    | .ok _ => runRetry (chatHandle classifyErrPrefix) classifyFallback transport

/-- Error prefix of `generate_linkedin_post`. -/
def postErrPrefix : String := "Erro ao gerar post: "

/-- Return statement after the retry loop of `generate_linkedin_post`. -/
def postFallback : Outcome :=
  .ret (.str "Erro: Não foi possível gerar o post após múltiplas tentativas. Tente novamente mais tarde.")

/-- `ZAIClassifier.generate_linkedin_post` (zai_classifier.py lines
132-228). `if not classification_text` short-circuits on the empty string;
otherwise the retry loop is identical in shape to `classify_news`. -/
def generate_linkedin_post (transport : Nat → HttpResult)
    (classification_text : String) : Outcome × Trace :=
  if classification_text.isEmpty then
    (.ret (.str "Nenhuma classificação disponível para gerar post."), ⟨[], 0⟩)
  else
    runRetry (chatHandle postErrPrefix) postFallback transport

/-- Modelled from the spec: fixed empty-input message of
`generate_linkedin_post_from_article`; its exact wording is not in `src/`,
only that it is a fixed string. -/
def fromArticleEmptyMsg : String := "Nenhuma notícia disponível para gerar post."

/-- Modelled from the spec: `ZAIClassifier.generate_linkedin_post_from_article`
is called by the GUI (`gui_app.py` line 298) but its definition is not
under `src/`. Per spec §4.4, `generateFromArticle(article, comment)` shares
the §4.3 retry policy and chat-completion endpoint, applied to one raw
article plus an optional steering comment; empty input short-circuits to a
fixed message without a network call. -/
def generate_linkedin_post_from_article (transport : Nat → HttpResult)
    (article : Article) (_comment : String) : Outcome × Trace :=
  if article.isEmpty then
    (.ret (.str fromArticleEmptyMsg), ⟨[], 0⟩)
  else
    runRetry (chatHandle postErrPrefix) postFallback transport

/-- Modelled from the spec: fixed empty-input message of
`generate_linkedin_post_direct`; its exact wording is not in `src/`, only
that it is a fixed string. -/
def directEmptyMsg : String := "Nenhum texto disponível para gerar post."

/-- Modelled from the spec: `ZAIClassifier.generate_linkedin_post_direct`
is called by the GUI (`gui_app.py` line 332) but its definition is not
under `src/`. Per spec §4.4, `generateFromFreeText(text)` shares the §4.3
retry policy and chat-completion endpoint, applied to arbitrary input text;
empty input short-circuits to a fixed message without a network call. -/
def generate_linkedin_post_direct (transport : Nat → HttpResult)
    (input_text : String) : Outcome × Trace :=
  if input_text.isEmpty then
    (.ret (.str directEmptyMsg), ⟨[], 0⟩)
  else
    runRetry (chatHandle postErrPrefix) postFallback transport

/-- One iteration of the marker-stripping loop of
`_extract_theme_from_post`: `if first_line.startswith(marker): first_line =
first_line[len(marker):].strip()`. Slicing counts characters, as Python
slices do. -/
def stripMarker (line : String) (marker : String) : String :=
  if marker.toList.isPrefixOf line.toList then
    pyStrip (String.mk (line.toList.drop marker.toList.length))
  else line

/-- `_extract_theme_from_post` (identical in `image_generator.py` lines
29-48 and `t2i_generator.py` lines 21-40). Python's `s.split('\n')` always
returns a non-empty list (`"".split('\n') == [""]`), mirrored by
`pySplitNL`, so the `[]` branch — the source's trailing
`return "business and technology"` — is unreachable. -/
def extract_theme_from_post (post : String) : String :=
  match pySplitNL (pyStrip post) with
  | [] => "business and technology"
  | first :: _ =>
      let first_line :=
        ["#", "**", "Título:", "Title:"].foldl stripMarker (pyStrip first)
      String.mk (first_line.toList.take 100)

/-- Python truthiness of `self.api_token` (`Config.REPLICATE_API_TOKEN`,
which is `None` when the environment variable is unset, and may be the
empty string): `none` and `some ""` are both "not configured". -/
def tokenConfigured : Option String → Bool
  | none => false
  | some s => !s.isEmpty

/-- The image-URL extraction of `ImageGenerator.generate_image` (lines
143-150): `image_url` starts as `""`; if `"output" in result and
result["output"]` then a non-empty list contributes its first element and a
string contributes itself, any other truthy value leaves `image_url = ""`. -/
def imageExtractUrl (j : Json) : Except PyExn Json := do
  let hasOutput ← pyIn "output" j
  if hasOutput then do
    let output ← pySub j (.str "output")
    if pyTruthy output then
      match output with
      | .arr (x :: _) => pure x
      | .str s => pure (.str s)
      | _ => pure (.str "")
    else
      pure (.str "")
  else
    pure (.str "")

/-- Error prefix of `generate_image`. -/
def imageErrPrefix : String := "Erro ao gerar imagem: "

/-- Return statement after the retry loop of `generate_image`. -/
def imageFallback : Outcome :=
  .ret (.str "Erro: Não foi possível gerar a imagem após múltiplas tentativas. Tente novamente mais tarde.")

/-- Python `str(e)` abstraction for the blanket `except Exception` clause
of `generate_image`; no claim depends on the exact text. -/
def pyExnMsg : PyExn → String
  | .keyError k => "'" ++ k ++ "'"
  | .indexError => "list index out of range"
  | .typeError => "type error"
  | .attributeError => "attribute error"

/-- Per-attempt handling of the HTTP result in
`ImageGenerator.generate_image` (lines 130-176). Unlike the chat clients,
the attempt body ends with a blanket `except Exception`, so destructuring
exceptions become error strings instead of escaping. `download url` models
`_download_image(url)`, which returns the local path, or `""` on any
download failure (its own `except Exception` swallows everything);
`_save_to_history` only appends to a log and swallows its errors, so it is
not modelled. -/
def imageHandle (download : Json → String) (r : HttpResult) (isLast : Bool) :
    StepResult :=
  match r with
  | .exn msg => .done (.ret (.str (imageErrPrefix ++ msg)))
  | .resp status body =>
      if status = 429 then
        if isLast then .done (.ret (.str rateLimitMsg)) else .retry
      else if 400 ≤ status ∧ status < 600 then
        .done (.ret (.str (imageErrPrefix ++ httpErrorMsg status)))
      else
        match body with
        | none => .done (.ret (.str (imageErrPrefix ++ jsonDecodeMsg)))
        | some j =>
            match imageExtractUrl j with
            | .error e => .done (.ret (.str (imageErrPrefix ++ pyExnMsg e)))
            | .ok image_url =>
                let local_path := if pyTruthy image_url then download image_url else ""
                if !local_path.isEmpty then .done (.ret (.str local_path))
                else if pyTruthy image_url then .done (.ret image_url)
                else .done (.ret (.str "Erro na resposta da API: URL da imagem não encontrada."))

/-- `ImageGenerator.generate_image` (image_generator.py lines 50-179).
`if not post` precedes the token check; the theme and prompt are built from
the post but only affect the request payload, which the `transport` oracle
abstracts. -/
def generate_image (api_token : Option String) (download : Json → String)
    (transport : Nat → HttpResult) (post : String) : Outcome × Trace :=
  if post.isEmpty then
    (.ret (.str "No post content available for image generation."), ⟨[], 0⟩)
  else if !tokenConfigured api_token then
    (.ret (.str "Erro: REPLICATE_API_TOKEN não configurado. Adicione ao arquivo .env"), ⟨[], 0⟩)
  else
    let _theme := extract_theme_from_post post
    runRetry (imageHandle download) imageFallback transport

/-- Optional keyword arguments of `NewsAPIClient.search` (tuning_search.py)
as a record of optional values; `fromDate`/`toDate` stand for the Python
kwargs `from`/`to` (reserved words in Lean). A field is `some v` exactly
when the caller passed that keyword. -/
structure SearchKwargs where
  language : Option Json := none
  country : Option Json := none
  category : Option Json := none
  page : Option Json := none
  pageSize : Option Json := none
  sources : Option Json := none
  domains : Option Json := none
  fromDate : Option Json := none
  toDate : Option Json := none
  sortBy : Option Json := none

/-- `if k in kwargs: params[k] = kwargs[k]`. -/
def addOpt (params : List (String × Json)) (k : String) (v : Option Json) :
    List (String × Json) :=
  match v with
  | some x => dictSet params k x
  | none => params

/-- The `params` dict built by `NewsAPIClient.search` (tuning_search.py
lines 59-85): the query term goes to `category` (mode `sources`) or `q`
(other modes), each optional filter is copied only when present, and
`pageSize` is always set, defaulting to the integer 10. -/
def buildParams (query : String) (mode : String) (kw : SearchKwargs) :
    List (String × Json) :=
  let params : List (String × Json) := []
  let params := if mode = "sources" then dictSet params "category" (.str query)
                else dictSet params "q" (.str query)
  let params := addOpt params "language" kw.language
  let params := addOpt params "country" kw.country
  let params := addOpt params "category" kw.category
  let params := addOpt params "page" kw.page
  let params := dictSet params "pageSize" (kw.pageSize.getD (.num 10))
  let params := addOpt params "sources" kw.sources
  let params := addOpt params "domains" kw.domains
  let params := addOpt params "from" kw.fromDate
  let params := addOpt params "to" kw.toDate
  let params := addOpt params "sortBy" kw.sortBy
  params

/-- `NewsAPIClient.search` (tuning_search.py lines 31-106) response
handling: one request, no retry; any `RequestException` (transport fault,
`HTTPError` from `raise_for_status` on 4xx/5xx, `JSONDecodeError` from
`response.json()`) yields the error dict; on a decoded body the two item
assignments `result["query"] = query` and `result["mode"] = mode` raise
`TypeError` when the body is not a dict, and nothing catches that. -/
def newsapi_search (r : HttpResult) (query : String) (mode : String) : Outcome :=
  let errDict := fun (msg : String) =>
    Json.obj [("error", .str msg), ("query", .str query),
              ("mode", .str mode), ("status", .str "failed")]
  match r with
  | .exn msg => .ret (errDict msg)
  | .resp status body =>
      if 400 ≤ status ∧ status < 600 then
        .ret (errDict (httpErrorMsg status))
      else
        match body with
        | none => .ret (errDict jsonDecodeMsg)
        | some j =>
            match (do
              let j1 ← pySetItem j "query" (.str query)
              pySetItem j1 "mode" (.str mode) : Except PyExn Json) with
            | .error e => .raised e
            | .ok j2 => .ret j2

/-- `NewsAPIClient.search_multiple` (tuning_search.py lines 108-126): the
`for query in queries` loop translated as structural recursion; `search1`
stands for one `self.search(query, ...)` call. The second component
instruments the terms for which a request was actually issued, in order. -/
def search_multiple (search1 : String → Json) :
    List String → List Json × List String
  | [] => ([], [])
  | query :: rest =>
      let q := pyStrip query
      if q.isEmpty then
        search_multiple search1 rest
      else
        let r := search_multiple search1 rest
        (search1 q :: r.1, q :: r.2)

/-! ## Helper lemmas -/

theorem runRetryGo_succ (handle : HttpResult → Bool → StepResult)
    (fallback : Outcome) (transport : Nat → HttpResult) (r attempt : Nat)
    (sleeps : List Nat) (reqs : Nat) :
    runRetryGo handle fallback transport (r + 1) attempt sleeps reqs =
      match handle (transport attempt) (decide (maxRetries - 1 ≤ attempt)) with
      | .done o => (o, ⟨sleeps ++ [attemptDelayMs attempt], reqs + 1⟩)
      | .retry => runRetryGo handle fallback transport r (attempt + 1)
          (sleeps ++ [attemptDelayMs attempt]) (reqs + 1) := rfl

theorem runRetry_done_first (handle : HttpResult → Bool → StepResult)
    (fallback : Outcome) (transport : Nat → HttpResult) (o : Outcome)
    (h0 : handle (transport 0) false = .done o) :
    runRetry handle fallback transport = (o, ⟨[500], 1⟩) := by
  show runRetryGo handle fallback transport (2 + 1) 0 [] 0 = _
  rw [runRetryGo_succ]
  simp [maxRetries, h0, attemptDelayMs, preDelayMs]

theorem runRetry_done_second (handle : HttpResult → Bool → StepResult)
    (fallback : Outcome) (transport : Nat → HttpResult) (o : Outcome)
    (h0 : handle (transport 0) false = .retry)
    (h1 : handle (transport 1) false = .done o) :
    runRetry handle fallback transport = (o, ⟨[500, 4000], 2⟩) := by
  show runRetryGo handle fallback transport (2 + 1) 0 [] 0 = _
  rw [runRetryGo_succ]
  rw [runRetryGo_succ]
  simp [maxRetries, h0, h1, attemptDelayMs, preDelayMs, baseDelayMs]

theorem runRetry_done_third (handle : HttpResult → Bool → StepResult)
    (fallback : Outcome) (transport : Nat → HttpResult) (o : Outcome)
    (h0 : handle (transport 0) false = .retry)
    (h1 : handle (transport 1) false = .retry)
    (h2 : handle (transport 2) true = .done o) :
    runRetry handle fallback transport = (o, ⟨[500, 4000, 8000], 3⟩) := by
  show runRetryGo handle fallback transport (2 + 1) 0 [] 0 = _
  rw [runRetryGo_succ]
  rw [runRetryGo_succ]
  rw [runRetryGo_succ]
  simp [maxRetries, h0, h1, h2, attemptDelayMs, preDelayMs, baseDelayMs]

theorem isEmpty_false_of_ne (s : String) (h : s ≠ "") : s.isEmpty = false := by
  cases hh : s.isEmpty
  · rfl
  · exact absurd ((String.isEmpty_iff _).mp hh) h

theorem isEmpty_false_of_ne_nil (l : List Article) (h : l ≠ []) :
    l.isEmpty = false := by
  cases l with
  | nil => exact absurd rfl h
  | cons a tl => rfl

theorem empty_isEmpty : "".isEmpty = true := rfl

theorem chatHandle_429_notLast (p : String) (b : Option Json) :
    chatHandle p (.resp 429 b) false = .retry := by
  simp [chatHandle]

theorem chatHandle_429_last (p : String) (b : Option Json) :
    chatHandle p (.resp 429 b) true = .done (.ret (.str rateLimitMsg)) := by
  simp [chatHandle]

theorem imageHandle_429_notLast (download : Json → String) (b : Option Json) :
    imageHandle download (.resp 429 b) false = .retry := by
  simp [imageHandle]

theorem imageHandle_429_last (download : Json → String) (b : Option Json) :
    imageHandle download (.resp 429 b) true = .done (.ret (.str rateLimitMsg)) := by
  simp [imageHandle]

theorem chatHandle_200 (p : String) (j : Json) (isLast : Bool) :
    chatHandle p (.resp 200 (some j)) isLast = .done (chatExtract j) := by
  simp [chatHandle]

theorem imageHandle_200 (download : Json → String) (j : Json) (isLast : Bool) :
    imageHandle download (.resp 200 (some j)) isLast =
      (match imageExtractUrl j with
       | .error e => .done (.ret (.str (imageErrPrefix ++ pyExnMsg e)))
       | .ok image_url =>
           let local_path := if pyTruthy image_url then download image_url else ""
           if !local_path.isEmpty then .done (.ret (.str local_path))
           else if pyTruthy image_url then .done (.ret image_url)
           else .done (.ret (.str "Erro na resposta da API: URL da imagem não encontrada."))) := by
  simp [imageHandle]

theorem classify_news_run (transport : Nat → HttpResult) (articles : List Article)
    (hart : articles ≠ []) (s : String) (hnd : newsData articles = .ok s) :
    classify_news transport articles =
      runRetry (chatHandle classifyErrPrefix) classifyFallback transport := by
  rw [classify_news, isEmpty_false_of_ne_nil articles hart, hnd]
  rfl

theorem chatExtract_success (fields cf mf : List (String × Json)) (cs : List Json)
    (v : Json)
    (hc : dictGet fields "choices" = some (.arr (.obj cf :: cs)))
    (hm : dictGet cf "message" = some (.obj mf))
    (hv : dictGet mf "content" = some v) :
    chatExtract (.obj fields) = .ret v := by
  simp [chatExtract, pyIn, pySub, pyLen, hc, hm, hv, Bind.bind, Except.bind, pure,
    Except.pure]

theorem chatExtract_missing (fields : List (String × Json))
    (h : dictGet fields "choices" = none ∨ dictGet fields "choices" = some (.arr [])) :
    chatExtract (.obj fields) = .ret (.str "Erro na resposta da API: formato inesperado.") := by
  rcases h with h | h <;>
    simp [chatExtract, pyIn, pySub, pyLen, h, Bind.bind, Except.bind, pure, Except.pure]

/-! ## Claim theorems -/

/-- C1: for each of the three generation clients (classification,
post-generation, image-generation), a transport answering HTTP 429 on every
attempt makes the operation issue exactly 3 requests and return the fixed
localized rate-limit error string (not raise), with a 0.5 s (500 ms) sleep
before attempt 1 and `base_delay * 2^attempt` sleeps of 4 s and 8 s before
attempts 2 and 3. -/
theorem retry_rate_limit_exhaustion
    (transport : Nat → HttpResult)
    (h429 : ∀ a, ∃ b, transport a = .resp 429 b)
    (articles : List Article) (hart : articles ≠ [])
    (s : String) (hnd : newsData articles = .ok s)
    (tok : Option String) (htok : tokenConfigured tok = true)
    (download : Json → String)
    (ctext post : String) (hct : ctext ≠ "") (hpost : post ≠ "") :
    classify_news transport articles
        = (.ret (.str rateLimitMsg), ⟨[500, 4000, 8000], 3⟩)
    ∧ generate_linkedin_post transport ctext
        = (.ret (.str rateLimitMsg), ⟨[500, 4000, 8000], 3⟩)
    ∧ generate_image tok download transport post
        = (.ret (.str rateLimitMsg), ⟨[500, 4000, 8000], 3⟩) := by
  obtain ⟨b0, e0⟩ := h429 0
  obtain ⟨b1, e1⟩ := h429 1
  obtain ⟨b2, e2⟩ := h429 2
  refine ⟨?_, ?_, ?_⟩
  · rw [classify_news_run transport articles hart s hnd]
    exact runRetry_done_third _ _ _ _
      (by rw [e0]; exact chatHandle_429_notLast _ _)
      (by rw [e1]; exact chatHandle_429_notLast _ _)
      (by rw [e2]; exact chatHandle_429_last _ _)
  · rw [generate_linkedin_post, isEmpty_false_of_ne ctext hct]
    simp only [Bool.false_eq_true, if_false]
    exact runRetry_done_third _ _ _ _
      (by rw [e0]; exact chatHandle_429_notLast _ _)
      (by rw [e1]; exact chatHandle_429_notLast _ _)
      (by rw [e2]; exact chatHandle_429_last _ _)
  · rw [generate_image, isEmpty_false_of_ne post hpost, htok]
    simp only [Bool.not_true, Bool.false_eq_true, if_false]
    exact runRetry_done_third _ _ _ _
      (by rw [e0]; exact imageHandle_429_notLast _ _)
      (by rw [e1]; exact imageHandle_429_notLast _ _)
      (by rw [e2]; exact imageHandle_429_last _ _)

theorem retry_rate_limit_exhaustion_witness :
    classify_news (fun _ => .resp 429 none) [[("title", .str "t")]]
        = (.ret (.str rateLimitMsg), ⟨[500, 4000, 8000], 3⟩)
    ∧ generate_linkedin_post (fun _ => .resp 429 none) "classified"
        = (.ret (.str rateLimitMsg), ⟨[500, 4000, 8000], 3⟩)
    ∧ generate_image (some "tok") (fun _ => "") (fun _ => .resp 429 none) "post"
        = (.ret (.str rateLimitMsg), ⟨[500, 4000, 8000], 3⟩) :=
  retry_rate_limit_exhaustion (fun _ => .resp 429 none) (fun _ => ⟨none, rfl⟩)
    [[("title", .str "t")]] (by simp) _ rfl (some "tok") rfl (fun _ => "")
    "classified" "post" (by simp) (by simp)

/-- C2: `search_multiple` produces exactly one outcome per input term that
is non-empty after stripping, in input order, and issues exactly one
request per such term (instrumented by the second component); empty or
whitespace-only terms contribute neither an outcome nor a request. -/
theorem search_multiple_order (search1 : String → Json) (queries : List String) :
    search_multiple search1 queries
      = (((queries.map pyStrip).filter (fun q => !q.isEmpty)).map search1,
         (queries.map pyStrip).filter (fun q => !q.isEmpty)) := by
  induction queries with
  | nil => rfl
  | cons q rest ih =>
      by_cases h : (pyStrip q).isEmpty <;>
        simp [search_multiple, h, ih]

theorem search_multiple_order_witness :
    search_multiple (fun q => .str q) ["  a ", "", "  ", "b"]
      = (((["  a ", "", "  ", "b"].map pyStrip).filter (fun q => !q.isEmpty)).map
          (fun q => .str q),
         (["  a ", "", "  ", "b"].map pyStrip).filter (fun q => !q.isEmpty)) :=
  search_multiple_order (fun q => .str q) ["  a ", "", "  ", "b"]

/-- C3: `classify_news` on an empty article list returns exactly the
sentinel string and issues zero network calls (and zero sleeps). -/
theorem classify_empty_articles (transport : Nat → HttpResult) :
    classify_news transport []
      = (.ret (.str "Nenhuma notícia para classificar."), ⟨[], 0⟩) := rfl

theorem classify_empty_articles_witness :
    classify_news (fun _ => .resp 200 none) []
      = (.ret (.str "Nenhuma notícia para classificar."), ⟨[], 0⟩) :=
  classify_empty_articles (fun _ => .resp 200 none)

/-- C4: with a transport answering 429 on attempt 1 and 200 on attempt 2,
each generation client issues exactly 2 requests; the chat clients return
the first completion choice's message content, and a 200 body whose
`choices` field is absent or empty makes them return the fixed "unexpected
response format" string; the image client likewise succeeds on the second
attempt, returning the extracted URL. -/
theorem second_attempt_success
    (transport : Nat → HttpResult) (b0 : Option Json)
    (fields : List (String × Json))
    (h0 : transport 0 = .resp 429 b0)
    (h1 : transport 1 = .resp 200 (some (.obj fields)))
    (articles : List Article) (hart : articles ≠ [])
    (s : String) (hnd : newsData articles = .ok s)
    (tok : Option String) (htok : tokenConfigured tok = true)
    (download : Json → String)
    (ctext post : String) (hct : ctext ≠ "") (hpost : post ≠ "") :
    (∀ (cf mf : List (String × Json)) (cs : List Json) (v : Json),
        dictGet fields "choices" = some (.arr (.obj cf :: cs)) →
        dictGet cf "message" = some (.obj mf) →
        dictGet mf "content" = some v →
        classify_news transport articles = (.ret v, ⟨[500, 4000], 2⟩)
          ∧ generate_linkedin_post transport ctext = (.ret v, ⟨[500, 4000], 2⟩))
    ∧ ((dictGet fields "choices" = none ∨ dictGet fields "choices" = some (.arr []))
        → classify_news transport articles
            = (.ret (.str "Erro na resposta da API: formato inesperado."), ⟨[500, 4000], 2⟩))
    ∧ (∀ u : String, dictGet fields "output" = some (.str u) → u ≠ "" →
          download (.str u) = "" →
          generate_image tok download transport post = (.ret (.str u), ⟨[500, 4000], 2⟩)) := by
  refine ⟨fun cf mf cs v hc hm hv => ⟨?_, ?_⟩, fun hmiss => ?_, fun u hu hne hdl => ?_⟩
  · rw [classify_news_run transport articles hart s hnd]
    rw [runRetry_done_second _ _ _ (chatExtract (.obj fields))
      (by rw [h0]; exact chatHandle_429_notLast _ _)
      (by rw [h1]; exact chatHandle_200 _ _ _)]
    rw [chatExtract_success fields cf mf cs v hc hm hv]
  · rw [generate_linkedin_post, isEmpty_false_of_ne ctext hct]
    simp only [Bool.false_eq_true, if_false]
    rw [runRetry_done_second _ _ _ (chatExtract (.obj fields))
      (by rw [h0]; exact chatHandle_429_notLast _ _)
      (by rw [h1]; exact chatHandle_200 _ _ _)]
    rw [chatExtract_success fields cf mf cs v hc hm hv]
  · rw [classify_news_run transport articles hart s hnd]
    rw [runRetry_done_second _ _ _ (chatExtract (.obj fields))
      (by rw [h0]; exact chatHandle_429_notLast _ _)
      (by rw [h1]; exact chatHandle_200 _ _ _)]
    rw [chatExtract_missing fields hmiss]
  · rw [generate_image, isEmpty_false_of_ne post hpost, htok]
    simp only [Bool.not_true, Bool.false_eq_true, if_false]
    refine runRetry_done_second _ _ _ (.ret (.str u))
      (by rw [h0]; exact imageHandle_429_notLast _ _) ?_
    rw [h1, imageHandle_200]
    have hx : imageExtractUrl (.obj fields) = .ok (.str u) := by
      simp [imageExtractUrl, pyIn, pySub, hu, pyTruthy, isEmpty_false_of_ne u hne,
        Bind.bind, Except.bind, pure, Except.pure]
    rw [hx]
    simp [pyTruthy, hdl, isEmpty_false_of_ne u hne, empty_isEmpty]

theorem second_attempt_success_witness :
    classify_news
        (fun a => if a = 0 then .resp 429 none
                  else .resp 200 (some (.obj [("choices",
                    .arr [.obj [("message", .obj [("content", .str "ok")])]])])))
        [[("title", .str "t")]]
      = (.ret (.str "ok"), ⟨[500, 4000], 2⟩) :=
  ((second_attempt_success
      (fun a => if a = 0 then .resp 429 none
                else .resp 200 (some (.obj [("choices",
                  .arr [.obj [("message", .obj [("content", .str "ok")])]])])))
      none [("choices", .arr [.obj [("message", .obj [("content", .str "ok")])]])]
      rfl rfl [[("title", .str "t")]] (by simp) _ rfl (some "tok") rfl (fun _ => "")
      "classified" "post" (by simp) (by simp)).1
    [("message", .obj [("content", .str "ok")])] [("content", .str "ok")] []
    (.str "ok") rfl rfl rfl).1

/-- C5: theme extraction strips the leading `#` marker and takes the first
line, so `"# Big Tech Layoffs\nmore text"` yields `"Big Tech Layoffs"`; but
for a post that is empty after trimming it yields `""`, not the documented
default `"business and technology"` — Python's `split('\n')` always returns
a non-empty list, so the default branch of the source is unreachable. -/
theorem extract_theme_eval :
    extract_theme_from_post "# Big Tech Layoffs\nmore text" = "Big Tech Layoffs"
    ∧ extract_theme_from_post "" = ""
    ∧ extract_theme_from_post "" ≠ "business and technology" :=
  ⟨rfl, rfl, by decide⟩

/-- C6 counterexample: with no API token configured and the empty post,
`generate_image` returns the "no post content" message, not the "token not
configured" message, because the `if not post` check precedes the token
check — refuting the claim as stated for every input post. -/
theorem image_no_token_counterexample :
    generate_image none (fun _ => "") (fun _ => .resp 429 none) ""
      = (.ret (.str "No post content available for image generation."), ⟨[], 0⟩)
    ∧ ("No post content available for image generation."
        ≠ "Erro: REPLICATE_API_TOKEN não configurado. Adicione ao arquivo .env") :=
  ⟨rfl, by decide⟩

/-- C6 (amended): for every non-empty input post, image generation with no
API token configured returns the fixed "token not configured" error string
and issues zero network calls. -/
theorem image_no_token_fails_fast (tok : Option String) (download : Json → String)
    (transport : Nat → HttpResult) (post : String) (hpost : post ≠ "")
    (htok : tokenConfigured tok = false) :
    generate_image tok download transport post
      = (.ret (.str "Erro: REPLICATE_API_TOKEN não configurado. Adicione ao arquivo .env"),
         ⟨[], 0⟩) := by
  rw [generate_image, isEmpty_false_of_ne post hpost, htok]
  rfl

theorem image_no_token_fails_fast_witness :
    generate_image none (fun _ => "") (fun _ => .resp 429 none) "post"
      = (.ret (.str "Erro: REPLICATE_API_TOKEN não configurado. Adicione ao arquivo .env"),
         ⟨[], 0⟩) :=
  image_no_token_fails_fast none (fun _ => "") (fun _ => .resp 429 none) "post"
    (by simp) rfl

/-- C7: when the image-creation request succeeds (HTTP 200 on the first
attempt) and the URL extraction yields `u`, `generate_image` returns the
local file path when the download succeeded, otherwise the remote URL when
one was extracted (a failed download — `_download_image` returning `""` —
is non-fatal), otherwise the fixed "image URL not found" error string. -/
theorem image_result_priority (tok : Option String) (download : Json → String)
    (transport : Nat → HttpResult) (post : String) (body u : Json)
    (hpost : post ≠ "") (htok : tokenConfigured tok = true)
    (h0 : transport 0 = .resp 200 (some body))
    (hex : imageExtractUrl body = .ok u) :
    (pyTruthy u = true → download u ≠ "" →
        generate_image tok download transport post
          = (.ret (.str (download u)), ⟨[500], 1⟩))
    ∧ (pyTruthy u = true → download u = "" →
        generate_image tok download transport post = (.ret u, ⟨[500], 1⟩))
    ∧ (pyTruthy u = false →
        generate_image tok download transport post
          = (.ret (.str "Erro na resposta da API: URL da imagem não encontrada."),
             ⟨[500], 1⟩)) := by
  have hrun : ∀ o : Outcome,
      imageHandle download (transport 0) false = .done o →
      generate_image tok download transport post = (o, ⟨[500], 1⟩) := by
    intro o ho
    rw [generate_image, isEmpty_false_of_ne post hpost, htok]
    simp only [Bool.not_true, Bool.false_eq_true, if_false]
    exact runRetry_done_first _ _ _ _ ho
  refine ⟨fun htr hdl => ?_, fun htr hdl => ?_, fun htr => ?_⟩
  · refine hrun _ ?_
    rw [h0, imageHandle_200, hex]
    simp [htr, isEmpty_false_of_ne _ hdl]
  · refine hrun _ ?_
    rw [h0, imageHandle_200, hex]
    simp [htr, hdl, empty_isEmpty]
  · refine hrun _ ?_
    rw [h0, imageHandle_200, hex]
    simp [htr, empty_isEmpty]

theorem image_result_priority_witness :
    generate_image (some "tok") (fun _ => "images/i.webp")
        (fun _ => .resp 200 (some (.obj [("output", .str "http://x")]))) "post"
      = (.ret (.str "images/i.webp"), ⟨[500], 1⟩) :=
  (image_result_priority (some "tok") (fun _ => "images/i.webp")
      (fun _ => .resp 200 (some (.obj [("output", .str "http://x")]))) "post"
      (.obj [("output", .str "http://x")]) (.str "http://x")
      (by simp) rfl rfl rfl).1 rfl (by simp)

/-- C8: the claim that every client method returns a displayable outcome on
every malformed response body is contradicted by the code: `classify_news`
lets `KeyError: 'message'` escape on a 200 body whose first choice lacks a
`message` key (its `except` clauses only cover `requests` exceptions), and
`NewsAPIClient.search` lets `TypeError` escape on a 200 body that is a JSON
array (`result["query"] = query` on a list). -/
theorem client_uncaught_exception :
    classify_news (fun _ => .resp 200 (some (.obj [("choices", .arr [.obj []])]))) [[]]
      = (.raised (.keyError "message"), ⟨[500], 1⟩)
    ∧ newsapi_search (.resp 200 (some (.arr []))) "q" "everything"
      = .raised .typeError :=
  ⟨rfl, rfl⟩

/-- C9: the post-generation client exposes three entry points — from a
classification (`generate_linkedin_post`), from a single article plus
optional comment (`generate_linkedin_post_from_article`, modelled from the
spec), and from free text (`generate_linkedin_post_direct`, modelled from
the spec) — and empty input to any of them short-circuits to its fixed
message with zero network calls. -/
theorem post_entry_points_empty_input :
    (∀ transport : Nat → HttpResult,
        generate_linkedin_post transport ""
          = (.ret (.str "Nenhuma classificação disponível para gerar post."), ⟨[], 0⟩))
    ∧ (∀ (transport : Nat → HttpResult) (comment : String),
        generate_linkedin_post_from_article transport [] comment
          = (.ret (.str fromArticleEmptyMsg), ⟨[], 0⟩))
    ∧ (∀ transport : Nat → HttpResult,
        generate_linkedin_post_direct transport ""
          = (.ret (.str directEmptyMsg), ⟨[], 0⟩)) :=
  ⟨fun _ => rfl, fun _ _ => rfl, fun _ => rfl⟩

theorem post_entry_points_empty_input_witness :
    generate_linkedin_post (fun _ => .resp 200 none) ""
      = (.ret (.str "Nenhuma classificação disponível para gerar post."), ⟨[], 0⟩) :=
  post_entry_points_empty_input.1 (fun _ => .resp 200 none)

theorem dictGet_map_update (d : List (String × Json)) (k' : String) (v : Json)
    (k : String) :
    dictGet (d.map (fun p => if p.1 = k' then (p.1, v) else p)) k
      = if k = k' then (dictGet d k).map (fun _ => v) else dictGet d k := by
  induction d with
  | nil => by_cases h : k = k' <;> simp [dictGet, h]
  | cons a tl ih =>
      obtain ⟨a1, a2⟩ := a
      by_cases h1 : a1 = k' <;> by_cases h2 : k = k' <;> by_cases h3 : a1 = k <;>
        simp_all [dictGet, List.find?_cons]

theorem dictGet_append_single (d : List (String × Json)) (k' : String) (v : Json)
    (k : String) :
    dictGet (d ++ [(k', v)]) k
      = match dictGet d k with
        | some x => some x
        | none => if k = k' then some v else none := by
  induction d with
  | nil =>
      by_cases h : k = k'
      · subst h; simp [dictGet, List.find?]
      · simp [dictGet, List.find?, h, Ne.symm h]
  | cons a tl ih =>
      by_cases h3 : a.1 = k <;> simp_all [dictGet, List.find?_cons]

theorem dictGet_dictSet (d : List (String × Json)) (k' : String) (v : Json)
    (k : String) :
    dictGet (dictSet d k' v) k = if k = k' then some v else dictGet d k := by
  by_cases hf : (d.find? (fun p => p.1 = k')).isSome
  · rw [dictSet, if_pos hf, dictGet_map_update]
    by_cases h : k = k'
    · subst h
      have hs : (dictGet d k).isSome := by simpa [dictGet] using hf
      obtain ⟨x, hx⟩ := Option.isSome_iff_exists.mp hs
      simp [hx]
    · simp [h]
  · rw [dictSet, if_neg hf, dictGet_append_single]
    by_cases h : k = k'
    · subst h
      have hn : dictGet d k = none := by
        rcases hfind : d.find? (fun p => p.1 = k) with _ | x
        · simp [dictGet, hfind]
        · exact absurd (by simp [hfind]) hf
      simp [hn]
    · rcases hdg : dictGet d k with _ | x <;> simp [h]

theorem dictGet_addOpt (d : List (String × Json)) (k' : String) (v : Option Json)
    (k : String) :
    dictGet (addOpt d k' v) k
      = if k = k' then (match v with | some x => some x | none => dictGet d k)
        else dictGet d k := by
  cases v with
  | none => simp [addOpt]
  | some x => simp [addOpt, dictGet_dictSet]

theorem dictGet_nil (k : String) : dictGet [] k = none := rfl

theorem dictGet_base (query mode k : String) (hq : k ≠ "q") (hc : k ≠ "category") :
    dictGet (if mode = "sources" then dictSet [] "category" (.str query)
             else dictSet [] "q" (.str query)) k = none := by
  by_cases hm : mode = "sources"
  · rw [if_pos hm, dictGet_dictSet, if_neg hc]; rfl
  · rw [if_neg hm, dictGet_dictSet, if_neg hq]; rfl

/-- C10 counterexample: in `sources` mode the `category` query parameter is
present even though the caller supplied no `category` keyword — refuting
"every other optional filter is included only when the caller supplies it"
as stated over all modes. -/
theorem buildParams_sources_category_counterexample :
    dictGet (buildParams "business" "sources" {}) "category" = some (.str "business")
    ∧ ({} : SearchKwargs).category = none :=
  ⟨rfl, rfl⟩

/-- C10 (amended): every request built by `search` carries `pageSize` —
the caller-supplied value when given, the integer 10 otherwise — and each
other optional filter (`language`, `country`, `page`, `sources`, `domains`,
`from`, `to`, `sortBy`, and `category` outside `sources` mode) is present
exactly when the caller supplies it, with the supplied value; except that
in `sources` mode `category` is always present, set to the query term
unless the caller's `category` keyword overrides it. -/
theorem buildParams_filters (query mode : String) (kw : SearchKwargs) :
    dictGet (buildParams query mode kw) "pageSize" = some (kw.pageSize.getD (.num 10))
    ∧ dictGet (buildParams query mode kw) "language" = kw.language
    ∧ dictGet (buildParams query mode kw) "country" = kw.country
    ∧ (mode ≠ "sources" → dictGet (buildParams query mode kw) "category" = kw.category)
    ∧ (mode = "sources" →
        dictGet (buildParams query mode kw) "category"
          = some (kw.category.getD (.str query)))
    ∧ dictGet (buildParams query mode kw) "page" = kw.page
    ∧ dictGet (buildParams query mode kw) "sources" = kw.sources
    ∧ dictGet (buildParams query mode kw) "domains" = kw.domains
    ∧ dictGet (buildParams query mode kw) "from" = kw.fromDate
    ∧ dictGet (buildParams query mode kw) "to" = kw.toDate
    ∧ dictGet (buildParams query mode kw) "sortBy" = kw.sortBy := by
  refine ⟨?_, ?_, ?_, fun hm => ?_, fun hm => ?_, ?_, ?_, ?_, ?_, ?_, ?_⟩
  · simp [buildParams, dictGet_addOpt, dictGet_dictSet]
  · simp [buildParams, dictGet_addOpt, dictGet_dictSet,
      dictGet_base query mode "language" (by decide) (by decide)]
    cases kw.language <;> simp
  · simp [buildParams, dictGet_addOpt, dictGet_dictSet,
      dictGet_base query mode "country" (by decide) (by decide)]
    cases kw.country <;> simp
  · simp [buildParams, dictGet_addOpt, dictGet_dictSet, hm, dictGet_nil]
    cases kw.category <;> simp
  · simp [buildParams, dictGet_addOpt, dictGet_dictSet, hm, dictGet_nil]
    cases kw.category <;> simp
  · simp [buildParams, dictGet_addOpt, dictGet_dictSet,
      dictGet_base query mode "page" (by decide) (by decide)]
    cases kw.page <;> simp
  · simp [buildParams, dictGet_addOpt, dictGet_dictSet,
      dictGet_base query mode "sources" (by decide) (by decide)]
    cases kw.sources <;> simp
  · simp [buildParams, dictGet_addOpt, dictGet_dictSet,
      dictGet_base query mode "domains" (by decide) (by decide)]
    cases kw.domains <;> simp
  · simp [buildParams, dictGet_addOpt, dictGet_dictSet,
      dictGet_base query mode "from" (by decide) (by decide)]
    cases kw.fromDate <;> simp
  · simp [buildParams, dictGet_addOpt, dictGet_dictSet,
      dictGet_base query mode "to" (by decide) (by decide)]
    cases kw.toDate <;> simp
  · simp [buildParams, dictGet_addOpt, dictGet_dictSet,
      dictGet_base query mode "sortBy" (by decide) (by decide)]
    cases kw.sortBy <;> simp

theorem buildParams_filters_witness :
    dictGet (buildParams "bitcoin" "everything" {}) "pageSize" = some (.num 10) :=
  (buildParams_filters "bitcoin" "everything" {}).1

end LinkedinPosts
